import Mathlib

/-!
Verification of the orbital-propagator core of `src/visualize.py`
(`SatelliteSimulation`): three-component real vectors, the physical
constants of the class, the semi-implicit Euler physics update, the
collision predicate, the orbital-parameter analyzer, the main loop tick,
and the input handlers.  Python floats are modelled as real numbers.
-/

namespace Satellite

/-- Three-component vector of reals, modelling vpython `vector`. -/
structure Vec3 where
  x : ℝ
  y : ℝ
  z : ℝ

theorem Vec3.ext_iff {a b : Vec3} : a = b ↔ a.x = b.x ∧ a.y = b.y ∧ a.z = b.z := by
  constructor
  · rintro rfl; exact ⟨rfl, rfl, rfl⟩
  · rcases a with ⟨ax, ay, az⟩
    rcases b with ⟨bx, by_, bz⟩
    rintro ⟨h1, h2, h3⟩
    simp_all

instance : Add Vec3 := ⟨fun a b => ⟨a.x + b.x, a.y + b.y, a.z + b.z⟩⟩

instance : Sub Vec3 := ⟨fun a b => ⟨a.x - b.x, a.y - b.y, a.z - b.z⟩⟩

/-- Scalar-times-vector, as in `-G * M / r**3 * r_vector`. -/
instance : HMul ℝ Vec3 Vec3 := ⟨fun c v => ⟨c * v.x, c * v.y, c * v.z⟩⟩

/-- Vector-times-scalar, as in `acceleration * TIME_STEP`. -/
instance : HMul Vec3 ℝ Vec3 := ⟨fun v c => ⟨v.x * c, v.y * c, v.z * c⟩⟩

@[simp] theorem add_x (a b : Vec3) : (a + b).x = a.x + b.x := rfl
@[simp] theorem add_y (a b : Vec3) : (a + b).y = a.y + b.y := rfl
@[simp] theorem add_z (a b : Vec3) : (a + b).z = a.z + b.z := rfl
@[simp] theorem sub_x (a b : Vec3) : (a - b).x = a.x - b.x := rfl
@[simp] theorem sub_y (a b : Vec3) : (a - b).y = a.y - b.y := rfl
@[simp] theorem sub_z (a b : Vec3) : (a - b).z = a.z - b.z := rfl
@[simp] theorem smul_x (c : ℝ) (v : Vec3) : (c * v).x = c * v.x := rfl
@[simp] theorem smul_y (c : ℝ) (v : Vec3) : (c * v).y = c * v.y := rfl
@[simp] theorem smul_z (c : ℝ) (v : Vec3) : (c * v).z = c * v.z := rfl
@[simp] theorem muls_x (v : Vec3) (c : ℝ) : (v * c).x = v.x * c := rfl
@[simp] theorem muls_y (v : Vec3) (c : ℝ) : (v * c).y = v.y * c := rfl
@[simp] theorem muls_z (v : Vec3) (c : ℝ) : (v * c).z = v.z * c := rfl

/-- vpython `mag`: Euclidean norm. -/
noncomputable def mag (v : Vec3) : ℝ := Real.sqrt (v.x ^ 2 + v.y ^ 2 + v.z ^ 2)

/-- vpython `.norm()`: the unit vector `v / mag(v)`. -/
noncomputable def Vec3.hat (v : Vec3) : Vec3 := ⟨v.x / mag v, v.y / mag v, v.z / mag v⟩

theorem mag_nonneg (v : Vec3) : 0 ≤ mag v := Real.sqrt_nonneg _

theorem mag_mk_x (c : ℝ) : mag ⟨c, 0, 0⟩ = |c| := by
  simp [mag, Real.sqrt_sq_eq_abs]

theorem mag_mk_y (c : ℝ) : mag ⟨0, c, 0⟩ = |c| := by
  simp [mag, Real.sqrt_sq_eq_abs]

theorem mag_smul (c : ℝ) (v : Vec3) : mag (c * v) = |c| * mag v := by
  have h : (c * v.x) ^ 2 + (c * v.y) ^ 2 + (c * v.z) ^ 2
      = c ^ 2 * (v.x ^ 2 + v.y ^ 2 + v.z ^ 2) := by ring
  simp only [mag, smul_x, smul_y, smul_z, h]
  rw [Real.sqrt_mul (sq_nonneg c), Real.sqrt_sq_eq_abs]

theorem mag_muls (v : Vec3) (c : ℝ) : mag (v * c) = |c| * mag v := by
  have h : (v.x * c) ^ 2 + (v.y * c) ^ 2 + (v.z * c) ^ 2
      = c ^ 2 * (v.x ^ 2 + v.y ^ 2 + v.z ^ 2) := by ring
  simp only [mag, muls_x, muls_y, muls_z, h]
  rw [Real.sqrt_mul (sq_nonneg c), Real.sqrt_sq_eq_abs]

theorem mag_hat (v : Vec3) (h : 0 < mag v) : mag v.hat = 1 := by
  have hs : v.x ^ 2 + v.y ^ 2 + v.z ^ 2 = (mag v) ^ 2 :=
    (Real.sq_sqrt (by positivity)).symm
  have hm : mag v ≠ 0 := ne_of_gt h
  have : v.hat = (1 / mag v) * v := by
    simp [Vec3.hat, Vec3.ext_iff]
    constructor
    · ring
    constructor
    · ring
    · ring
  rw [this, mag_smul]
  rw [abs_of_pos (by positivity)]
  field_simp

/-! Physical constants and simulation parameters of `SatelliteSimulation`. -/

/-- `G = 6.67430e-11`, gravitational constant. -/
noncomputable def G : ℝ := 6.67430e-11

/-- `EARTH_MASS = 5.972e24` kg. -/
noncomputable def EARTH_MASS : ℝ := 5.972e24

/-- `EARTH_RADIUS = 6.371e6` m. -/
noncomputable def EARTH_RADIUS : ℝ := 6.371e6

/-- `DEFAULT_ALTITUDE = 700e3` m. -/
noncomputable def DEFAULT_ALTITUDE : ℝ := 700e3

/-- `TIME_STEP = 1` second. -/
noncomputable def TIME_STEP : ℝ := 1

/-- `VELOCITY_ARROW_SCALE = 3e6`. -/
noncomputable def VELOCITY_ARROW_SCALE : ℝ := 3e6

open Classical

/-- Orbit classification produced by `update_orbital_info` (the code uses
the display strings "Elliptical", "Near-Parabolic", "Hyperbolic (Escape)"). -/
inductive OrbitType where
  | Elliptical
  | NearParabolic
  | Hyperbolic
deriving DecidableEq

/-- The quantities `update_orbital_info` computes and renders into
`orbital_info.text`.  `period` is the orbital period in seconds when one is
computed, `none` standing for the rendered "N/A (escape trajectory)". -/
structure OrbitalInfo where
  altitude : ℝ
  r : ℝ
  v : ℝ
  energy : ℝ
  v_circular : ℝ
  v_escape : ℝ
  period : Option ℝ
  orbit_type : OrbitType

/-- `SatelliteSimulation.update_orbital_info`, lines 219-272: derived orbital
quantities from the satellite position (`self.satellite.pos`) and the given
velocity. -/
noncomputable def update_orbital_info (pos velocity : Vec3) : OrbitalInfo :=
  let r := mag pos
  let v := mag velocity
  let altitude := (r - EARTH_RADIUS) / 1000
  let energy := 0.5 * v ^ 2 - G * EARTH_MASS / r
  let v_circular := Real.sqrt (G * EARTH_MASS / r)
  let v_escape := Real.sqrt (2 * G * EARTH_MASS / r)
  let period : Option ℝ :=
    if energy < 0 then
      let semi_major_axis := -G * EARTH_MASS / (2 * energy)
      some (2 * 3.14159 * Real.sqrt (semi_major_axis ^ 3 / (G * EARTH_MASS)))
    else none
  let orbit_type :=
    if energy < -100 then OrbitType.Elliptical
    else if energy < 100 then OrbitType.NearParabolic
    else OrbitType.Hyperbolic
  ⟨altitude, r, v, energy, v_circular, v_escape, period, orbit_type⟩

/-- The mutable fields of `SatelliteSimulation` touched by the core:
the earth's and satellite's scene objects, the run flag, and the UI inputs.
A text field holds `some x` when its text parses as the float `x`, and
`none` when parsing raises `ValueError`. -/
structure SimState where
  earth_pos : Vec3
  pos : Vec3
  velocity : Vec3
  running : Bool
  visible : Bool
  altitude_text : Option ℝ
  vx_text : Option ℝ
  vy_text : Option ℝ
  vz_text : Option ℝ
  arrow_pos : Vec3
  arrow_axis : Vec3
  label_pos : Vec3
  initial_position : Vec3
  orbital_info : OrbitalInfo

/-- `SatelliteSimulation.update_physics`, lines 363-374: semi-implicit Euler
step (velocity first, then position from the updated velocity). -/
noncomputable def update_physics (s : SimState) : SimState :=
  let r_vector := s.pos - s.earth_pos
  let r_magnitude := mag r_vector
  let acceleration := (-G * EARTH_MASS / r_magnitude ^ 3) * r_vector
  let velocity := s.velocity + acceleration * TIME_STEP
  let pos := s.pos + velocity * TIME_STEP
  { s with velocity := velocity, pos := pos }

/-- `SatelliteSimulation.check_collision`, lines 358-361: true iff the
distance from the satellite to the earth's center is at most
`EARTH_RADIUS`.  It reads state and returns a boolean, mutating nothing. -/
def check_collision (s : SimState) : Prop :=
  mag (s.pos - s.earth_pos) ≤ EARTH_RADIUS

/-- One iteration of the `while True` body of `SatelliteSimulation.run`,
lines 381-401: skip when not running, otherwise check collision first
(terminating the run and hiding the satellite on collision) and only in the
non-collision case call `update_physics`. -/
noncomputable def tick (s : SimState) : SimState :=
  if s.running then
    if check_collision s then
      { s with visible := false, running := false }
    else
      update_physics s
  else s

/-- `SatelliteSimulation.get_velocity_from_inputs`, lines 138-146: the three
components must all parse, otherwise the `ValueError` handler returns
`None`. -/
def get_velocity_from_inputs (s : SimState) : Option Vec3 :=
  match s.vx_text, s.vy_text, s.vz_text with
  | some vx, some vy, some vz => some ⟨vx, vy, vz⟩
  | _, _, _ => none

/-- `SatelliteSimulation.get_altitude_from_input`, lines 126-136: parse the
altitude field (km); clamp a negative value to `0` and rewrite the field
text to "0"; return the altitude in meters, or `none` on `ValueError`.
The result pairs the returned value with the field's text after the call. -/
noncomputable def get_altitude_from_input (text : Option ℝ) : Option (ℝ × Option ℝ) :=
  match text with
  | none => none
  | some altitude_km =>
    if altitude_km < 0 then some (0 * 1000, some 0)
    else some (altitude_km * 1000, text)

/-- `SatelliteSimulation.update_velocity_vector`, lines 193-217: re-read the
velocity inputs; on parse failure return with no change; otherwise store the
velocity, redraw the arrow and label, and recompute the orbital info. -/
noncomputable def update_velocity_vector (s : SimState) : SimState :=
  match get_velocity_from_inputs s with
  | none => s
  | some velocity =>
    let s1 := { s with velocity := velocity }
    let s2 :=
      if mag velocity > 0 then
        { s1 with arrow_axis := velocity.hat * VELOCITY_ARROW_SCALE }
      else
        { s1 with arrow_axis := (⟨0, 0, 0⟩ : Vec3) }
    let s3 := { s2 with arrow_pos := s2.pos }
    let s4 := { s3 with label_pos := s3.arrow_pos + s3.arrow_axis * (1.2 : ℝ) }
    { s4 with orbital_info := update_orbital_info s4.pos velocity }

/-- `SatelliteSimulation.update_altitude`, lines 148-191: re-read the
altitude field; on parse failure return with no change; otherwise move the
satellite to the new radial distance along its current direction (the x-axis
when it sits at the origin), refresh the arrow, rewrite the y-velocity field
to the circular speed truncated to an integer (`str(int(...))`, and the
circular speed is nonnegative, so truncation is the floor), and rerun
`update_velocity_vector`.  The `scene.range` update is presentation only. -/
noncomputable def update_altitude (s : SimState) : SimState :=
  match get_altitude_from_input s.altitude_text with
  | none => s
  | some (altitude, new_text) =>
    let s0 := { s with altitude_text := new_text }
    let direction := if mag s0.pos > 0 then s0.pos.hat else (⟨1, 0, 0⟩ : Vec3)
    let new_distance := EARTH_RADIUS + altitude
    let new_position := direction * new_distance
    let s1 := { s0 with pos := new_position, initial_position := new_position }
    let s2 := { s1 with arrow_pos := s1.pos }
    let circular_velocity := Real.sqrt (G * EARTH_MASS / new_distance)
    let s3 :=
      match get_velocity_from_inputs s2 with
      | some _ => { s2 with vy_text := some ((⌊circular_velocity⌋ : ℤ) : ℝ) }
      | none =>
        { s2 with vx_text := some 0,
                  vy_text := some ((⌊circular_velocity⌋ : ℤ) : ℝ),
                  vz_text := some 0 }
    update_velocity_vector s3

theorem sub_zero_vec (v : Vec3) : v - (⟨0, 0, 0⟩ : Vec3) = v := by
  rw [Vec3.ext_iff]; simp

/-- A concrete state used to instantiate theorems with hypotheses. -/
noncomputable def base_state : SimState where
  earth_pos := ⟨0, 0, 0⟩
  pos := ⟨0, 0, 0⟩
  velocity := ⟨0, 0, 0⟩
  running := false
  visible := true
  altitude_text := some 700
  vx_text := some 0
  vy_text := some 7300
  vz_text := some 0
  arrow_pos := ⟨0, 0, 0⟩
  arrow_axis := ⟨0, 0, 0⟩
  label_pos := ⟨0, 0, 0⟩
  initial_position := ⟨0, 0, 0⟩
  orbital_info := ⟨0, 0, 0, 0, 0, 0, none, OrbitType.Elliptical⟩

/-- C1: with the primary at the origin and `|position| > 0`, one
`update_physics` call computes `a = -(G*M/|position|^3) * position`, then
`v' = velocity + a*dt`, then `p' = position + v'*dt`, the position update
using the already-updated velocity; when `a ≠ 0` the new position differs
from the explicit-Euler position `position + velocity*dt`. -/
theorem step_symplectic_euler (s : SimState) (h0 : s.earth_pos = ⟨0, 0, 0⟩)
    (h : 0 < mag s.pos) :
    (update_physics s).velocity =
      s.velocity + ((-G * EARTH_MASS / (mag s.pos) ^ 3) * s.pos) * TIME_STEP ∧
    (update_physics s).pos =
      s.pos + (s.velocity +
        ((-G * EARTH_MASS / (mag s.pos) ^ 3) * s.pos) * TIME_STEP) * TIME_STEP ∧
    (((-G * EARTH_MASS / (mag s.pos) ^ 3) * s.pos) ≠ (⟨0, 0, 0⟩ : Vec3) →
      (update_physics s).pos ≠ s.pos + s.velocity * TIME_STEP) := by
  have hsub : s.pos - s.earth_pos = s.pos := by rw [h0, sub_zero_vec]
  refine ⟨?_, ?_, ?_⟩
  · simp only [update_physics, hsub]
  · simp only [update_physics, hsub]
  · intro ha heq
    apply ha
    rw [Vec3.ext_iff] at heq ⊢
    simp only [update_physics, hsub, add_x, add_y, add_z, muls_x, muls_y,
      muls_z, smul_x, smul_y, smul_z, TIME_STEP] at heq ⊢
    obtain ⟨h1, h2, h3⟩ := heq
    refine ⟨by linarith, by linarith, by linarith⟩

/-- Witness for C1 at `position = (1, 0, 0)`, `velocity = 0`. -/
theorem step_symplectic_euler_witness :
    0 < mag ({ base_state with pos := (⟨1, 0, 0⟩ : Vec3) } : SimState).pos ∧
    (update_physics { base_state with pos := ⟨1, 0, 0⟩ }).velocity =
      base_state.velocity +
        ((-G * EARTH_MASS /
            (mag ({ base_state with pos := (⟨1, 0, 0⟩ : Vec3) } : SimState).pos) ^ 3) *
          (⟨1, 0, 0⟩ : Vec3)) * TIME_STEP := by
  have h : 0 < mag ({ base_state with pos := (⟨1, 0, 0⟩ : Vec3) } : SimState).pos := by
    show 0 < mag ⟨1, 0, 0⟩
    rw [mag_mk_x]; norm_num
  exact ⟨h, (step_symplectic_euler { base_state with pos := ⟨1, 0, 0⟩ } rfl h).1⟩

theorem update_physics_zero_vel (s : SimState) (h0 : s.earth_pos = ⟨0, 0, 0⟩)
    (hv : s.velocity = ⟨0, 0, 0⟩) :
    (update_physics s).pos =
      (1 - G * EARTH_MASS * TIME_STEP ^ 2 / (mag s.pos) ^ 3) * s.pos := by
  have hsub : s.pos - s.earth_pos = s.pos := by rw [h0, sub_zero_vec]
  rw [Vec3.ext_iff]
  simp only [update_physics, hsub, hv, add_x, add_y, add_z, muls_x, muls_y,
    muls_z, smul_x, smul_y, smul_z]
  refine ⟨by ring, by ring, by ring⟩

/-- C8 counterexample: at `position = (1, 0, 0)` (1 meter from the center)
with zero velocity, one `update_physics` step moves the satellite strictly
farther from the center, not closer: the huge acceleration overshoots. -/
theorem radial_infall_counterexample :
    0 < mag ({ base_state with pos := (⟨1, 0, 0⟩ : Vec3) } : SimState).pos ∧
    ({ base_state with pos := (⟨1, 0, 0⟩ : Vec3) } : SimState).velocity = ⟨0, 0, 0⟩ ∧
    mag ((update_physics { base_state with pos := ⟨1, 0, 0⟩ }).pos) >
      mag ({ base_state with pos := (⟨1, 0, 0⟩ : Vec3) } : SimState).pos := by
  have hm : mag ({ base_state with pos := (⟨1, 0, 0⟩ : Vec3) } : SimState).pos = 1 := by
    show mag ⟨1, 0, 0⟩ = 1
    rw [mag_mk_x]; norm_num
  refine ⟨by rw [hm]; norm_num, rfl, ?_⟩
  rw [update_physics_zero_vel _ rfl rfl, mag_smul, hm]
  have habs : |1 - G * EARTH_MASS * TIME_STEP ^ 2 / (1 : ℝ) ^ 3|
      = G * EARTH_MASS - 1 := by
    rw [abs_of_neg (by norm_num [G, EARTH_MASS, TIME_STEP])]
    norm_num [TIME_STEP]
  rw [habs]
  norm_num [G, EARTH_MASS]

/-- C8 amended: for every position with `|position| > 0` and
`G*M*dt^2/|position|^3 < 2` (in particular at any physically meaningful
radius), a single `update_physics` step from zero velocity moves the
position strictly closer to the primary's center. -/
theorem radial_infall (s : SimState) (h0 : s.earth_pos = ⟨0, 0, 0⟩)
    (hv : s.velocity = ⟨0, 0, 0⟩) (h1 : 0 < mag s.pos)
    (h2 : G * EARTH_MASS * TIME_STEP ^ 2 / (mag s.pos) ^ 3 < 2) :
    mag ((update_physics s).pos) < mag s.pos := by
  rw [update_physics_zero_vel s h0 hv, mag_smul]
  have hGM : (0 : ℝ) < G * EARTH_MASS * TIME_STEP ^ 2 := by
    norm_num [G, EARTH_MASS, TIME_STEP]
  have hk : 0 < G * EARTH_MASS * TIME_STEP ^ 2 / (mag s.pos) ^ 3 :=
    div_pos hGM (pow_pos h1 3)
  have habs : |1 - G * EARTH_MASS * TIME_STEP ^ 2 / (mag s.pos) ^ 3| < 1 := by
    rw [abs_lt]
    constructor <;> linarith
  calc |1 - G * EARTH_MASS * TIME_STEP ^ 2 / (mag s.pos) ^ 3| * mag s.pos
      < 1 * mag s.pos := mul_lt_mul_of_pos_right habs h1
    _ = mag s.pos := one_mul _

/-- Witness for the amended C8 at `position = (10^6, 0, 0)`. -/
theorem radial_infall_witness :
    0 < mag ({ base_state with pos := (⟨1000000, 0, 0⟩ : Vec3) } : SimState).pos ∧
    G * EARTH_MASS * TIME_STEP ^ 2 /
      (mag ({ base_state with pos := (⟨1000000, 0, 0⟩ : Vec3) } : SimState).pos) ^ 3 < 2 ∧
    mag ((update_physics { base_state with pos := ⟨1000000, 0, 0⟩ }).pos) <
      mag ({ base_state with pos := (⟨1000000, 0, 0⟩ : Vec3) } : SimState).pos := by
  have hm : mag ({ base_state with pos := (⟨1000000, 0, 0⟩ : Vec3) } : SimState).pos
      = 1000000 := by
    show mag ⟨1000000, 0, 0⟩ = 1000000
    rw [mag_mk_x]; norm_num
  have h1 : 0 < mag ({ base_state with pos := (⟨1000000, 0, 0⟩ : Vec3) } : SimState).pos := by
    rw [hm]; norm_num
  have h2 : G * EARTH_MASS * TIME_STEP ^ 2 /
      (mag ({ base_state with pos := (⟨1000000, 0, 0⟩ : Vec3) } : SimState).pos) ^ 3 < 2 := by
    rw [hm]; norm_num [G, EARTH_MASS, TIME_STEP]
  exact ⟨h1, h2, radial_infall _ rfl rfl h1 h2⟩

theorem info_energy (pos vel : Vec3) :
    (update_orbital_info pos vel).energy
      = 0.5 * (mag vel) ^ 2 - G * EARTH_MASS / mag pos := rfl

theorem info_orbit_type (pos vel : Vec3) :
    (update_orbital_info pos vel).orbit_type =
      if (update_orbital_info pos vel).energy < -100 then OrbitType.Elliptical
      else if (update_orbital_info pos vel).energy < 100 then OrbitType.NearParabolic
      else OrbitType.Hyperbolic := rfl

theorem info_period (pos vel : Vec3) :
    (update_orbital_info pos vel).period =
      if (update_orbital_info pos vel).energy < 0 then
        some (2 * 3.14159 * Real.sqrt
          ((-G * EARTH_MASS / (2 * (update_orbital_info pos vel).energy)) ^ 3
            / (G * EARTH_MASS)))
      else none := rfl

theorem GM_pos : (0 : ℝ) < G * EARTH_MASS := by norm_num [G, EARTH_MASS]

/-- C2 amended: the analyzer classifies with a ±100 J/kg band around zero,
not at zero: `Elliptical` exactly when `energy < -100`, `Near-Parabolic`
exactly when `-100 ≤ energy < 100`, `Hyperbolic` exactly when
`100 ≤ energy`; for velocity of magnitude `sqrt(G*M/r)` the energy is
`-G*M/(2r)`, strictly negative, and the classification is `Elliptical`
exactly when `G*M/(2r) > 100`. -/
theorem classification_band (pos vel : Vec3) (h : 0 < mag pos) :
    ((update_orbital_info pos vel).orbit_type = OrbitType.Elliptical ↔
      (update_orbital_info pos vel).energy < -100) ∧
    ((update_orbital_info pos vel).orbit_type = OrbitType.NearParabolic ↔
      -100 ≤ (update_orbital_info pos vel).energy ∧
        (update_orbital_info pos vel).energy < 100) ∧
    ((update_orbital_info pos vel).orbit_type = OrbitType.Hyperbolic ↔
      100 ≤ (update_orbital_info pos vel).energy) ∧
    (mag vel = Real.sqrt (G * EARTH_MASS / mag pos) →
      (update_orbital_info pos vel).energy = -(G * EARTH_MASS) / (2 * mag pos) ∧
      (update_orbital_info pos vel).energy < 0 ∧
      ((update_orbital_info pos vel).orbit_type = OrbitType.Elliptical ↔
        100 < G * EARTH_MASS / (2 * mag pos))) := by
  have hband :
      ((update_orbital_info pos vel).orbit_type = OrbitType.Elliptical ↔
        (update_orbital_info pos vel).energy < -100) ∧
      ((update_orbital_info pos vel).orbit_type = OrbitType.NearParabolic ↔
        -100 ≤ (update_orbital_info pos vel).energy ∧
          (update_orbital_info pos vel).energy < 100) ∧
      ((update_orbital_info pos vel).orbit_type = OrbitType.Hyperbolic ↔
        100 ≤ (update_orbital_info pos vel).energy) := by
    rw [info_orbit_type]
    rcases lt_or_le ((update_orbital_info pos vel).energy) (-100) with h1 | h1
    · rw [if_pos h1]
      refine ⟨by simp [h1], by simp; intro h2; linarith, by simp; linarith⟩
    · rw [if_neg (not_lt.mpr h1)]
      rcases lt_or_le ((update_orbital_info pos vel).energy) 100 with h2 | h2
      · rw [if_pos h2]
        refine ⟨by simp; linarith, by simp [h1, h2], by simp; linarith⟩
      · rw [if_neg (not_lt.mpr h2)]
        refine ⟨by simp; linarith, by simp; intro h3; linarith, by simp [h2]⟩
  refine ⟨hband.1, hband.2.1, hband.2.2, ?_⟩
  intro hcirc
  have hGMr : (0 : ℝ) ≤ G * EARTH_MASS / mag pos :=
    le_of_lt (div_pos GM_pos h)
  have hE : (update_orbital_info pos vel).energy
      = -(G * EARTH_MASS) / (2 * mag pos) := by
    rw [info_energy, hcirc, Real.sq_sqrt hGMr]
    field_simp
    ring
  have hpos2 : (0 : ℝ) < G * EARTH_MASS / (2 * mag pos) :=
    div_pos GM_pos (by linarith)
  have hneg : (update_orbital_info pos vel).energy < 0 := by
    rw [hE, neg_div]
    linarith
  refine ⟨hE, hneg, ?_⟩
  rw [hband.1, hE, neg_div]
  constructor <;> intro <;> linarith

/-- Witness for the amended C2 at `position = (7.071e6, 0, 0)`. -/
theorem classification_band_witness :
    0 < mag (⟨7071000, 0, 0⟩ : Vec3) ∧
    ((update_orbital_info ⟨7071000, 0, 0⟩ ⟨0, 0, 0⟩).orbit_type = OrbitType.Elliptical ↔
      (update_orbital_info ⟨7071000, 0, 0⟩ ⟨0, 0, 0⟩).energy < -100) := by
  have h : 0 < mag (⟨7071000, 0, 0⟩ : Vec3) := by rw [mag_mk_x]; norm_num
  exact ⟨h, (classification_band ⟨7071000, 0, 0⟩ ⟨0, 0, 0⟩ h).1⟩

/-- C2 counterexample: at `position = (G*M/100, 0, 0)`,
`velocity = (0, 10, 0)`, the specific energy is `-50 < 0`, yet the code
classifies the orbit as `Near-Parabolic`, not `Elliptical`. -/
theorem classification_counterexample :
    (update_orbital_info ⟨G * EARTH_MASS / 100, 0, 0⟩ ⟨0, 10, 0⟩).energy < 0 ∧
    (update_orbital_info ⟨G * EARTH_MASS / 100, 0, 0⟩ ⟨0, 10, 0⟩).orbit_type ≠
      OrbitType.Elliptical := by
  have hGM : G * EARTH_MASS ≠ 0 := ne_of_gt GM_pos
  have hmp : mag (⟨G * EARTH_MASS / 100, 0, 0⟩ : Vec3) = G * EARTH_MASS / 100 := by
    rw [mag_mk_x, abs_of_pos (div_pos GM_pos (by norm_num))]
  have hmv : mag (⟨0, 10, 0⟩ : Vec3) = 10 := by
    rw [mag_mk_y]; norm_num
  have hE : (update_orbital_info ⟨G * EARTH_MASS / 100, 0, 0⟩ ⟨0, 10, 0⟩).energy
      = -50 := by
    rw [info_energy, hmp, hmv]
    rw [show G * EARTH_MASS / (G * EARTH_MASS / 100) = 100 by field_simp]
    norm_num
  constructor
  · rw [hE]; norm_num
  · rw [info_orbit_type, hE]
    rw [if_neg (by norm_num), if_pos (by norm_num)]
    simp

/-- C4 amended: the analyzer report carries
`energy = 0.5*v^2 - G*M/r`, `v_circular = sqrt(G*M/r)`,
`v_escape = sqrt(2*G*M/r)`, and `altitude = (r - R)/1000` — the altitude is
reported in kilometers, not in the meters of `R`. -/
theorem report_quantities (pos vel : Vec3) (h : 0 < mag pos) :
    (update_orbital_info pos vel).energy
      = 0.5 * (mag vel) ^ 2 - G * EARTH_MASS / mag pos ∧
    (update_orbital_info pos vel).v_circular
      = Real.sqrt (G * EARTH_MASS / mag pos) ∧
    (update_orbital_info pos vel).v_escape
      = Real.sqrt (2 * G * EARTH_MASS / mag pos) ∧
    (update_orbital_info pos vel).altitude
      = (mag pos - EARTH_RADIUS) / 1000 :=
  ⟨rfl, rfl, rfl, rfl⟩

/-- Witness for the amended C4 at `position = (6.372e6, 0, 0)`. -/
theorem report_quantities_witness :
    0 < mag (⟨6372000, 0, 0⟩ : Vec3) ∧
    (update_orbital_info ⟨6372000, 0, 0⟩ ⟨0, 0, 0⟩).altitude
      = (mag (⟨6372000, 0, 0⟩ : Vec3) - EARTH_RADIUS) / 1000 := by
  have h : 0 < mag (⟨6372000, 0, 0⟩ : Vec3) := by rw [mag_mk_x]; norm_num
  exact ⟨h, (report_quantities ⟨6372000, 0, 0⟩ ⟨0, 0, 0⟩ h).2.2.2⟩

/-- C4 counterexample: at `position = (6372000, 0, 0)` (1 km above the
surface) the report's altitude is `1` (kilometers), not
`r - R = 1000` (meters): the report does not use the length unit of `R`. -/
theorem report_altitude_counterexample :
    (update_orbital_info ⟨6372000, 0, 0⟩ ⟨0, 0, 0⟩).altitude ≠
      mag (⟨6372000, 0, 0⟩ : Vec3) - EARTH_RADIUS := by
  have hm : mag (⟨6372000, 0, 0⟩ : Vec3) = 6372000 := by
    rw [mag_mk_x]; norm_num
  have ha : (update_orbital_info ⟨6372000, 0, 0⟩ ⟨0, 0, 0⟩).altitude
      = (mag (⟨6372000, 0, 0⟩ : Vec3) - EARTH_RADIUS) / 1000 := rfl
  rw [ha, hm]
  norm_num [EARTH_RADIUS]

/-- C5 amended: the analyzer computes a period exactly when
`energy < 0`, with `semiMajorAxis = -G*M/(2*energy)` and
`period = 2 * 3.14159 * sqrt(semiMajorAxis^3 / (G*M))` — the code uses the
literal `3.14159`, not `π` — and reports "not applicable" (no value, no
error) when `energy ≥ 0`. -/
theorem period_iff_bound (pos vel : Vec3) (h : 0 < mag pos) :
    ((update_orbital_info pos vel).period.isSome ↔
      (update_orbital_info pos vel).energy < 0) ∧
    ((update_orbital_info pos vel).energy < 0 →
      (update_orbital_info pos vel).period =
        some (2 * 3.14159 * Real.sqrt
          ((-G * EARTH_MASS / (2 * (update_orbital_info pos vel).energy)) ^ 3
            / (G * EARTH_MASS)))) ∧
    (0 ≤ (update_orbital_info pos vel).energy →
      (update_orbital_info pos vel).period = none) := by
  rcases lt_or_le ((update_orbital_info pos vel).energy) 0 with hE | hE
  · rw [info_period, if_pos hE]
    exact ⟨by simp [hE], fun _ => rfl, fun h2 => absurd hE (not_lt.mpr h2)⟩
  · rw [info_period, if_neg (not_lt.mpr hE)]
    exact ⟨by simp [not_lt.mpr hE], fun h2 => absurd h2 (not_lt.mpr hE),
      fun _ => rfl⟩

/-- Witness for the amended C5 at `position = (7.071e6, 0, 0)`. -/
theorem period_iff_bound_witness :
    0 < mag (⟨7071000, 0, 0⟩ : Vec3) ∧
    ((update_orbital_info ⟨7071000, 0, 0⟩ ⟨0, 0, 0⟩).period.isSome ↔
      (update_orbital_info ⟨7071000, 0, 0⟩ ⟨0, 0, 0⟩).energy < 0) := by
  have h : 0 < mag (⟨7071000, 0, 0⟩ : Vec3) := by rw [mag_mk_x]; norm_num
  exact ⟨h, (period_iff_bound ⟨7071000, 0, 0⟩ ⟨0, 0, 0⟩ h).1⟩

/-- C5 counterexample: at `position = (2, 0, 0)`, `velocity = 0` the energy
is negative and the code's period is `2 * 3.14159 * sqrt(a^3/(G*M))`, which
is not `2π * sqrt(a^3/(G*M))`: the code's `3.14159` is not `π`. -/
theorem period_pi_counterexample :
    (update_orbital_info ⟨2, 0, 0⟩ ⟨0, 0, 0⟩).energy < 0 ∧
    (update_orbital_info ⟨2, 0, 0⟩ ⟨0, 0, 0⟩).period ≠
      some (2 * Real.pi * Real.sqrt
        ((-G * EARTH_MASS /
            (2 * (update_orbital_info ⟨2, 0, 0⟩ ⟨0, 0, 0⟩).energy)) ^ 3
          / (G * EARTH_MASS))) := by
  have hE : (update_orbital_info ⟨2, 0, 0⟩ ⟨0, 0, 0⟩).energy
      = 0.5 * (0 : ℝ) ^ 2 - G * EARTH_MASS / 2 := by
    rw [info_energy]
    rw [show mag (⟨0, 0, 0⟩ : Vec3) = |(0 : ℝ)| from mag_mk_x 0]
    rw [show mag (⟨2, 0, 0⟩ : Vec3) = |(2 : ℝ)| from mag_mk_x 2]
    norm_num
  have hEneg : (update_orbital_info ⟨2, 0, 0⟩ ⟨0, 0, 0⟩).energy < 0 := by
    rw [hE]
    have := GM_pos
    norm_num
    linarith
  refine ⟨hEneg, ?_⟩
  rw [info_period, if_pos hEneg]
  intro hcontra
  rw [Option.some.injEq] at hcontra
  have hsma : 0 < -G * EARTH_MASS /
      (2 * (update_orbital_info ⟨2, 0, 0⟩ ⟨0, 0, 0⟩).energy) := by
    apply div_pos_of_neg_of_neg
    · have := GM_pos; linarith
    · linarith
  have hs : 0 < Real.sqrt
      ((-G * EARTH_MASS /
          (2 * (update_orbital_info ⟨2, 0, 0⟩ ⟨0, 0, 0⟩).energy)) ^ 3
        / (G * EARTH_MASS)) :=
    Real.sqrt_pos.mpr (div_pos (pow_pos hsma 3) GM_pos)
  have h2 : (2 * 3.14159 : ℝ) = 2 * Real.pi :=
    mul_right_cancel₀ (ne_of_gt hs) hcontra
  have hpi : (3.141592 : ℝ) < Real.pi := Real.pi_gt_d6
  norm_num at h2
  linarith

/-- C3: `check_collision` holds exactly when the distance from the
satellite to the primary body's center is at most `EARTH_RADIUS`, with the
boundary `|p - c| = R` included; as a function of the state it returns a
truth value and changes nothing. -/
theorem collision_boundary (s : SimState) :
    (check_collision s ↔ mag (s.pos - s.earth_pos) ≤ EARTH_RADIUS) ∧
    (mag (s.pos - s.earth_pos) = EARTH_RADIUS → check_collision s) :=
  ⟨Iff.rfl, fun h => le_of_eq h⟩

/-- Witness for C3: a satellite exactly on the surface collides. -/
theorem collision_boundary_witness :
    check_collision { base_state with pos := ⟨6371000, 0, 0⟩ } := by
  apply (collision_boundary { base_state with pos := ⟨6371000, 0, 0⟩ }).2
  show mag ((⟨6371000, 0, 0⟩ : Vec3) - ⟨0, 0, 0⟩) = EARTH_RADIUS
  rw [sub_zero_vec, mag_mk_x]
  norm_num [EARTH_RADIUS]

theorem tick_not_running (s : SimState) (h : s.running = false) : tick s = s := by
  simp [tick, h]

/-- C6: in a tick with the phase `Running` and the collision predicate
true, the run flag drops in that same tick, the physics update does not run
(position and velocity are unchanged), and every later tick leaves the
state frozen. -/
theorem collision_stops_stepping (s : SimState) (h1 : s.running = true)
    (h2 : check_collision s) :
    (tick s).running = false ∧ (tick s).pos = s.pos ∧
    (tick s).velocity = s.velocity ∧
    ∀ n : ℕ, (tick^[n] (tick s)).pos = s.pos ∧
      (tick^[n] (tick s)).velocity = s.velocity ∧
      (tick^[n] (tick s)).running = false := by
  have ht : tick s = { s with visible := false, running := false } := by
    simp [tick, h1, h2]
  have hfix : tick (tick s) = tick s := by
    rw [ht]
    exact tick_not_running _ rfl
  have hiter : ∀ n : ℕ, tick^[n] (tick s) = tick s := fun n =>
    Function.iterate_fixed hfix n
  refine ⟨by rw [ht], by rw [ht], by rw [ht], fun n => ?_⟩
  rw [hiter n, ht]
  exact ⟨rfl, rfl, rfl⟩

/-- Witness for C6 at a running state already in collision. -/
theorem collision_stops_stepping_witness :
    ({ base_state with running := true } : SimState).running = true ∧
    check_collision { base_state with running := true } ∧
    (tick { base_state with running := true }).running = false := by
  have hc : check_collision { base_state with running := true } := by
    show mag ((⟨0, 0, 0⟩ : Vec3) - ⟨0, 0, 0⟩) ≤ EARTH_RADIUS
    rw [sub_zero_vec]
    rw [show mag (⟨0, 0, 0⟩ : Vec3) = |(0 : ℝ)| from mag_mk_x 0]
    norm_num [EARTH_RADIUS]
  exact ⟨rfl, hc,
    (collision_stops_stepping { base_state with running := true } rfl hc).1⟩

/-- The guard under which a tick of `run` reaches `update_physics`. -/
def physics_executed (s : SimState) : Prop :=
  s.running = true ∧ ¬ check_collision s

/-- C7: a tick performs the division by `r_magnitude^3` only when the
collision check (evaluated first) is false, which forces
`r_magnitude > EARTH_RADIUS > 0`; a running state with `|position| = 0` is
an immediate collision and its tick leaves the position untouched and the
phase not `Running`, so propagation never divides by zero. -/
theorem no_division_by_zero (s : SimState) (h0 : s.earth_pos = ⟨0, 0, 0⟩) :
    (physics_executed s →
      tick s = update_physics s ∧ mag (s.pos - s.earth_pos) ≠ 0) ∧
    (s.running = true → mag s.pos = 0 →
      ¬ physics_executed s ∧ (tick s).running = false ∧ (tick s).pos = s.pos) := by
  constructor
  · rintro ⟨hr, hc⟩
    have hgt : EARTH_RADIUS < mag (s.pos - s.earth_pos) := not_le.mp hc
    have hR : (0 : ℝ) < EARTH_RADIUS := by norm_num [EARTH_RADIUS]
    exact ⟨by simp [tick, hr, hc], ne_of_gt (lt_trans hR hgt)⟩
  · intro hr hm
    have hc : check_collision s := by
      show mag (s.pos - s.earth_pos) ≤ EARTH_RADIUS
      rw [h0, sub_zero_vec, hm]
      norm_num [EARTH_RADIUS]
    exact ⟨fun hpe => hpe.2 hc, by simp [tick, hr, hc], by simp [tick, hr, hc]⟩

/-- Witness for C7 at a running state at the exact center. -/
theorem no_division_by_zero_witness :
    ¬ physics_executed { base_state with running := true } ∧
    (tick { base_state with running := true }).running = false := by
  have hm : mag ({ base_state with running := true } : SimState).pos = 0 := by
    rw [show mag ({ base_state with running := true } : SimState).pos
        = |(0 : ℝ)| from mag_mk_x 0]
    norm_num
  have h := (no_division_by_zero { base_state with running := true } rfl).2 rfl hm
  exact ⟨h.1, h.2.1⟩

theorem update_velocity_vector_pos (s : SimState) :
    (update_velocity_vector s).pos = s.pos := by
  rw [update_velocity_vector]
  cases h : get_velocity_from_inputs s with
  | none => rfl
  | some v =>
    simp only []
    split_ifs <;> rfl

theorem update_velocity_vector_altitude_text (s : SimState) :
    (update_velocity_vector s).altitude_text = s.altitude_text := by
  rw [update_velocity_vector]
  cases h : get_velocity_from_inputs s with
  | none => rfl
  | some v =>
    simp only []
    split_ifs <;> rfl

/-- C9: an edit of the velocity fields that does not parse makes
`update_velocity_vector` return with the state untouched, and an altitude
field that does not parse makes `update_altitude` return with the state
untouched; both handlers are total, so no exception escapes. -/
theorem malformed_input_ignored (s : SimState) :
    (get_velocity_from_inputs s = none → update_velocity_vector s = s) ∧
    (s.altitude_text = none → update_altitude s = s) := by
  constructor
  · intro h
    rw [update_velocity_vector, h]
  · intro h
    rw [update_altitude, h]
    rfl

/-- Witness for C9 at a state whose velocity-x and altitude fields hold
unparsable text. -/
theorem malformed_input_ignored_witness :
    update_velocity_vector { base_state with vx_text := none, altitude_text := none }
      = { base_state with vx_text := none, altitude_text := none } ∧
    update_altitude { base_state with vx_text := none, altitude_text := none }
      = { base_state with vx_text := none, altitude_text := none } :=
  ⟨(malformed_input_ignored _).1 rfl, (malformed_input_ignored _).2 rfl⟩

/-- C10: an altitude edit that parses to a value strictly below zero is not
discarded: the value is clamped to `0` (meters), the field text is
rewritten to "0", and `update_altitude` places the satellite at distance
exactly `EARTH_RADIUS` from the primary body's center. -/
theorem negative_altitude_clamped (s : SimState) (a : ℝ)
    (h1 : s.altitude_text = some a) (h2 : a < 0) :
    get_altitude_from_input s.altitude_text = some (0, some 0) ∧
    (update_altitude s).altitude_text = some 0 ∧
    mag ((update_altitude s).pos) = EARTH_RADIUS := by
  have hga : get_altitude_from_input s.altitude_text = some (0 * 1000, some 0) := by
    rw [h1, get_altitude_from_input]
    simp only [if_pos h2]
  refine ⟨by rw [hga]; norm_num, ?_, ?_⟩
  · rw [update_altitude, hga]
    rw [update_velocity_vector_altitude_text]
    cases hgv : get_velocity_from_inputs _ <;> rfl
  · rw [update_altitude, hga]
    rw [update_velocity_vector_pos]
    have hdir : mag (if mag s.pos > 0 then s.pos.hat else (⟨1, 0, 0⟩ : Vec3)) = 1 := by
      split_ifs with hp
      · exact mag_hat s.pos hp
      · rw [mag_mk_x]; norm_num
    cases hgv : get_velocity_from_inputs _
    · show mag ((if mag s.pos > 0 then s.pos.hat else (⟨1, 0, 0⟩ : Vec3)) *
          (EARTH_RADIUS + 0 * 1000)) = EARTH_RADIUS
      rw [mag_muls, hdir]
      norm_num [EARTH_RADIUS]
    · show mag ((if mag s.pos > 0 then s.pos.hat else (⟨1, 0, 0⟩ : Vec3)) *
          (EARTH_RADIUS + 0 * 1000)) = EARTH_RADIUS
      rw [mag_muls, hdir]
      norm_num [EARTH_RADIUS]

/-- Witness for C10 at an altitude field reading `-5` km. -/
theorem negative_altitude_clamped_witness :
    ((-5 : ℝ) < 0) ∧
    (update_altitude { base_state with altitude_text := some (-5) }).altitude_text
      = some 0 ∧
    mag ((update_altitude { base_state with altitude_text := some (-5) }).pos)
      = EARTH_RADIUS := by
  have h := negative_altitude_clamped { base_state with altitude_text := some (-5) }
    (-5) rfl (by norm_num)
  exact ⟨by norm_num, h.2.1, h.2.2⟩

end Satellite
